import Mathlib

/-!
Shallow embedding of `sample_info/modules/visualizations.py` (the single
source file of the `aws-cv-unique-information` repository), together with
proofs of the specification claims about it.

Modelling conventions:
* Numeric score values are modelled as rationals (`Q`); numpy arrays and
  torch tensors are modelled by their flattened element sequence, a `List Q`.
* Python runtime values that may be passed as `scores` are the inductive
  `PyObj`; Python exceptions are the inductive `PyErr`, and a Python function
  that may raise returns `Except PyErr _`.
* Matplotlib is modelled by recording, in order, the drawing calls issued on
  the axes (`ax.hist`, `ax.plot` of a KDE curve), together with the data and
  keyword arguments each call received.  The kernel-density estimate itself is
  delegated to sklearn in the source, so a KDE drawing call records the data
  the estimator was fitted on, the bandwidth, and the evaluation grid.
-/

/-- Scores are real-valued; we embed them as rationals. -/
abbrev Q := Rat

/-- Python runtime values that can reach `convert_scores_to_numpy`.
Arrays and tensors are modelled by their flattened element sequence. -/
inductive PyObj where
  | npArray (data : List Q)
  | tensor (data : List Q)
  | pyList (elems : List PyObj)
  | pyFloat (x : Q)
  | pyStr (s : String)
  | pyNone

/-- Python exceptions raised by the modelled code paths. -/
inductive PyErr where
  | valueError (msg : String)
  | indexError
  | typeError
  | runtimeError
deriving DecidableEq

/-- `isinstance(x, torch.Tensor)`. -/
def PyObj.isTensor : PyObj → Bool
  | .tensor _ => true
  | _ => false

/-- The data of a tensor, if the object is one. -/
def PyObj.tensorData : PyObj → Option (List Q)
  | .tensor d => some d
  | _ => none

/-- The data of each element, provided every element is a tensor. -/
def tensorDatas : List PyObj → Option (List (List Q))
  | [] => some []
  | e :: es =>
    match e.tensorData, tensorDatas es with
    | some d, some ds => some (d :: ds)
    | _, _ => none

/-- `torch.stack(elems).flatten()`: requires every element to be a tensor
(else `TypeError`) of one common shape (else `RuntimeError`); the flattening
of the stacked result is the concatenation of the flattened elements. -/
def stackFlatten (elems : List PyObj) : Except PyErr (List Q) :=
  match tensorDatas elems with
  | none => .error .typeError
  | some ds =>
    match ds with
    | [] => .ok []
    | d :: rest =>
      if rest.all (fun x => x.length = d.length) then .ok ((d :: rest).flatten)
      else .error .runtimeError

/-- `convert_scores_to_numpy` from the source:
```
def convert_scores_to_numpy(scores):
    if isinstance(scores, list) and isinstance(scores[0], torch.Tensor):
        return utils.to_numpy(torch.stack(scores).flatten())
    if isinstance(scores, torch.Tensor):
        return utils.to_numpy(scores.flatten())
    if isinstance(scores, np.ndarray):
        return scores.flatten()
    raise ValueError("Cannot convert scores to a numpy array.")
```
Note the first guard evaluates `scores[0]` whenever `scores` is a list, so an
empty list raises `IndexError` before any branch can be taken. -/
def convert_scores_to_numpy : PyObj → Except PyErr (List Q)
  | .pyList [] => .error .indexError
  | .pyList (e :: es) =>
    if e.isTensor then stackFlatten (e :: es)
    else .error (.valueError "Cannot convert scores to a numpy array.")
  | .tensor d => .ok d
  | .npArray d => .ok d
  | _ => .error (.valueError "Cannot convert scores to a numpy array.")

/-- Lexicographic comparison of character sequences by code point, which is
how Python compares strings. -/
def lexLeb : List Char → List Char → Bool
  | [], _ => true
  | _ :: _, [] => false
  | a :: as, b :: bs =>
    if a.toNat < b.toNat then true
    else if b.toNat < a.toNat then false
    else lexLeb as bs

/-- Python string order `a <= b`. -/
def pyStrLe (a b : String) : Prop := lexLeb a.data b.data = true

instance (a b : String) : Decidable (pyStrLe a b) :=
  inferInstanceAs (Decidable (_ = _))

/-- `sorted(list(set(groups)))`: the distinct labels, in ascending order. -/
def differentGroups (groups : List String) : List String :=
  List.insertionSort pyStrLe groups.dedup

/-- Numpy boolean-mask selection `scores[groups == g]`: the scores at the
positions whose group label equals `g`, in order.  (Numpy requires the mask
to have the same length as the indexed array; the callers below check this.) -/
def selectByGroup (scores : List Q) (groups : List String) (g : String) : List Q :=
  ((scores.zip groups).filter (fun p => p.2 = g)).map (fun p => p.1)

/-- `np.max` over a (nonempty, in every actual use) array; 0 on the empty list. -/
def listMax : List Q → Q
  | [] => 0
  | x :: xs => xs.foldl max x

/-- `np.min`; 0 on the empty list. -/
def listMin : List Q → Q
  | [] => 0
  | x :: xs => xs.foldl min x

/-- `np.linspace(a, b, n)`: `n` evenly spaced points from `a` to `b`
inclusive (for `n ≥ 2`; a single point `a` for `n = 1`). -/
def linspace (a b : Q) (n : Nat) : List Q :=
  (List.range n).map
    (fun i : Nat => if n ≤ 1 then a else a + (b - a) * (i : Q) / ((n : Q) - 1))

/-- The `bins` argument of `ax.hist`: either a bin count or an explicit
array of bin edges. -/
inductive Bins where
  | count (n : Nat)
  | edges (es : List Q)
deriving DecidableEq, Inhabited

/-- The bin edges `ax.hist`/`np.histogram` computes and returns for the given
data and `bins` argument: for an integer count `n`, `n + 1` evenly spaced
edges over the data range; an explicit edge array is returned as given. -/
def histEdges (bins : Bins) (data : List Q) : List Q :=
  match bins with
  | .count n => linspace (listMin data) (listMax data) (n + 1)
  | .edges es => es

/-- One `ax.hist(data, bins=binsArg, alpha=0.5, label=label, density=density)`
call as issued by `plot_histogram_of_informativeness`. -/
structure HistCall where
  data : List Q
  binsArg : Bins
  label : String
  density : Bool
deriving DecidableEq, Inhabited

/-- One density-curve drawing: sklearn `KernelDensity(kernel='gaussian',
bandwidth=bandwidth).fit(fitData)` evaluated on the grid `xs` and passed to
`ax.plot(xs, prob_density, label=label)`. -/
structure KDECall where
  fitData : List Q
  bandwidth : Q
  xs : List Q
  label : String
deriving DecidableEq, Inhabited

/-- A drawing call issued on the axes. -/
inductive PlotCmd where
  | histCmd (c : HistCall)
  | kdeCmd (c : KDECall)
deriving DecidableEq, Inhabited

/-- The non-density loop of `plot_histogram_of_informativeness`:
```
for g in different_groups:
    _, bins, _ = ax.hist(informativeness_scores[groups == g], bins=bins,
                         alpha=0.5, label=g, density=density)
```
`bins` is rebound to the edge array returned by each call, so it threads
through the loop. -/
def histLoop (scores : List Q) (groups : List String) :
    List String → Bins → Bool → List HistCall
  | [], _, _ => []
  | g :: gs, bins, density =>
    let data := selectByGroup scores groups g
    { data := data, binsArg := bins, label := g, density := density } ::
      histLoop scores groups gs (.edges (histEdges bins data)) density

/-- The density-estimation loop of `plot_histogram_of_informativeness`:
```
for g in different_groups:
    scores = informativeness_scores[groups == g]
    kde = KernelDensity(kernel='gaussian', bandwidth=bandwidth).fit(...)
    xs = np.linspace(0.000, np.max(informativeness_scores), 1000)
    prob_density = np.exp(kde.score_samples(...))
    ax.plot(xs, prob_density, label=g)
```
Note `np.max` is taken over all of `informativeness_scores`, not the group. -/
def kdeLoop (scores : List Q) (groups : List String) (bandwidth : Q)
    (gs : List String) : List KDECall :=
  gs.map (fun g =>
    { fitData := selectByGroup scores groups g, bandwidth := bandwidth,
      xs := linspace 0 (listMax scores) 1000, label := g })

/-- What `plot_histogram_of_informativeness` did: the drawing calls issued in
order, whether `ax.legend()` was called, the y-axis label, and the returned
pair.  Created matplotlib objects are modelled by tokens: the figure and axes
made by `fig, ax = plt.subplots(figsize=(7, 5))` get tokens `0`. -/
structure HistOutput where
  cmds : List PlotCmd
  legendCalled : Bool
  ylabel : String
  createdFig : Nat
  createdAx : Nat
  ret : Nat × Option Nat
deriving DecidableEq

/-- The group-label list the function works with:
```
if groups is None:
    groups = ['dummy'] * len(informativeness_scores)
    with_groups = False
```
-/
def effectiveGroups (s : List Q) : Option (List String) → List String
  | none => List.replicate s.length "dummy"
  | some gl => gl

/-- `plot_histogram_of_informativeness(informativeness_scores, groups=None,
bins=50, plt=None, save_name=None, density=False,
use_density_estimation=False, bandwidth=0.0002, **kwargs)`. -/
def plot_histogram_of_informativeness (scores : PyObj)
    (groups : Option (List String)) (bins : Bins)
    (density use_density_estimation : Bool) (bandwidth : Q) :
    Except PyErr HistOutput :=
  match convert_scores_to_numpy scores with
  | .error e => .error e
  | .ok s =>
    let density := use_density_estimation || density
    let with_groups := groups.isSome
    let gs := effectiveGroups s groups
    if gs.length ≠ s.length then .error .indexError
    else
      let dg := differentGroups gs
      let cmds :=
        if use_density_estimation then
          (kdeLoop s gs bandwidth dg).map PlotCmd.kdeCmd
        else
          (histLoop s gs dg bins density).map PlotCmd.histCmd
      .ok { cmds := cmds, legendCalled := with_groups,
            ylabel := if density then "Density" else "Count",
            createdFig := 0, createdAx := 0, ret := (0, some 0) }

/-- The comparison underlying `np.argsort(scores)` realised as a stable sort:
index `i` precedes index `j` when its score is smaller, ties broken by
position.  Any argsort of `scores` orders indices in ascending score order;
this relation fixes one. -/
def argRel (xs : List Q) (i j : Nat) : Prop :=
  xs.getD i 0 < xs.getD j 0 ∨ (xs.getD i 0 = xs.getD j 0 ∧ i ≤ j)

instance (xs : List Q) (i j : Nat) : Decidable (argRel xs i j) :=
  inferInstanceAs (Decidable (_ ∨ _))

/-- `np.argsort(scores)`: the indices `0, …, len-1` sorted so that the
corresponding scores are ascending. -/
def argsort (xs : List Q) : List Nat :=
  List.insertionSort (argRel xs) (List.range xs.length)

/-- Python `l[:n]`. -/
def pySliceFirst (l : List α) (n : Nat) : List α := l.take n

/-- Python `l[-n:]`: the last `n` elements for `n ≥ 1`; for `n = 0` the slice
`l[-0:]` is `l[0:]`, the whole list. -/
def pySliceLast (l : List α) (n : Nat) : List α :=
  if n = 0 then l else l.drop (l.length - n)

/-- What `plot_least_or_most_informative_examples` did: the indices it passed
to the display helper `plot_examples_from_dataset(data=data, indices=indices,
n_rows=1, n_cols=n_examples, ...)`, and the returned `(fig, ax)` pair of that
helper (modelled by tokens, as above). -/
structure ExamplesOutput where
  indices : List Nat
  createdFig : Nat
  createdAx : Nat
  ret : Nat × Option Nat
deriving DecidableEq

/-- `plot_least_or_most_informative_examples(data, informativeness_scores,
plt=None, save_name=None, least_informative=False, n_examples=10, **kwargs)`:
```
order = np.argsort(informativeness_scores)
if least_informative:
    indices = order[:n_examples]
else:
    indices = order[-n_examples:]
```
The dataset itself plays no role in the selection. -/
def plot_least_or_most_informative_examples (scores : PyObj)
    (least_informative : Bool) (n_examples : Nat) :
    Except PyErr ExamplesOutput :=
  match convert_scores_to_numpy scores with
  | .error e => .error e
  | .ok s =>
    let order := argsort s
    let indices :=
      if least_informative then pySliceFirst order n_examples
      else pySliceLast order n_examples
    .ok { indices := indices, createdFig := 0, createdAx := 0, ret := (0, some 0) }

/-- `sorted(list(set(ys)))` for the extracted integer labels. -/
def setYs (ys : List Int) : List Int :=
  List.insertionSort (· ≤ ·) ys.dedup

/-- Mask selection `informativeness_scores[ys == y]` on integer labels. -/
def selectByLabel (scores : List Q) (ys : List Int) (y : Int) : List Q :=
  ((scores.zip ys).filter (fun p => p.2 = y)).map (fun p => p.1)

/-- One `ax_left.hist(informativeness_scores[mask], bins=30, label=label,
alpha=0.6)` call from `plot_summary_of_informativeness`. -/
structure SummaryHistCall where
  data : List Q
  label : String
deriving DecidableEq, Inhabited

/-- What `plot_summary_of_informativeness` did: the per-label histogram calls
on the left panel in order, the index lists used for the two image rows, and
the returned pair `(fig, None)`. -/
structure SummaryOutput where
  histCalls : List SummaryHistCall
  least_informative : List Nat
  most_informative : List Nat
  createdFig : Nat
  ret : Nat × Option Nat
deriving DecidableEq

/-- `plot_summary_of_informativeness(data, informativeness_scores,
label_names=None, save_name=None, plt=None, is_label_one_hot=False,
**kwargs)`, with the labels `ys` already extracted from the dataset
(`ys = np.array([torch.tensor(y).item() for x, y in data])`, after the
optional arg-max when labels are one-hot; `label_names = None`, so each
label string is `str(y)`).  Drawing a 10-image row for each of
`least_informative = order[:10]` and `most_informative = order[-10:]`
indexes `data[least_informative[i]]` for `i in range(10)`, which raises
`IndexError` when the dataset has fewer than 10 samples; numpy raises
`IndexError` when the label mask and the score array differ in length. -/
def plot_summary_of_informativeness (scores : PyObj) (ys : List Int) :
    Except PyErr SummaryOutput :=
  match convert_scores_to_numpy scores with
  | .error e => .error e
  | .ok s =>
    if ys.length ≠ s.length then .error .indexError
    else if s.length < 10 then .error .indexError
    else
      let order := argsort s
      .ok { histCalls := (setYs ys).map (fun y =>
              { data := selectByLabel s ys y, label := toString y }),
            least_informative := pySliceFirst order 10,
            most_informative := pySliceLast order 10,
            createdFig := 0, ret := (0, none) }

/-- A heap of array buffers, for the frame claim: the caller's numpy/torch
storage, addressed by index.  Every library call the source issues on the
scores (`flatten`, `torch.stack`, boolean-mask indexing, `np.argsort`,
`ax.hist`, `KernelDensity.fit`) returns a fresh buffer and writes nothing
into its argument, so a run only ever appends buffers. -/
abbrev VizHeap := List (List Q)

/-- Read the buffer at address `a`. -/
def readBuf (h : VizHeap) (a : Nat) : List Q := h.getD a []

/-- `plot_histogram_of_informativeness` run against a heap holding the
caller's scores buffer at address `a`: the flattened copy made by
`convert_scores_to_numpy` and the per-group mask selections are freshly
allocated (appended); no existing address is written. -/
def plot_histogram_heapRun (h : VizHeap) (a : Nat)
    (groups : Option (List String)) (bins : Bins)
    (density use_density_estimation : Bool) (bandwidth : Q) :
    VizHeap × Except PyErr HistOutput :=
  let s := readBuf h a
  let res := plot_histogram_of_informativeness (.npArray s) groups bins
      density use_density_estimation bandwidth
  let gs := effectiveGroups s groups
  (h ++ [s] ++ (differentGroups gs).map (selectByGroup s gs), res)

/-- `plot_least_or_most_informative_examples` run against a heap, as above:
it allocates the flattened copy and the argsort result. -/
def plot_examples_heapRun (h : VizHeap) (a : Nat)
    (least_informative : Bool) (n_examples : Nat) :
    VizHeap × Except PyErr ExamplesOutput :=
  let s := readBuf h a
  let res := plot_least_or_most_informative_examples (.npArray s)
      least_informative n_examples
  (h ++ [s] ++ [(argsort s).map (fun i : Nat => (i : Q))], res)

/-- `plot_summary_of_informativeness` run against a heap, as above. -/
def plot_summary_heapRun (h : VizHeap) (a : Nat) (ys : List Int) :
    VizHeap × Except PyErr SummaryOutput :=
  let s := readBuf h a
  let res := plot_summary_of_informativeness (.npArray s) ys
  (h ++ [s] ++ (setYs ys).map (selectByLabel s ys)
     ++ [(argsort s).map (fun i : Nat => (i : Q))], res)

/-- Specification predicate: `sel` is a choice of `n` distinct valid sample
indices whose scores are at most the score of every unselected index — i.e.
`sel` picks `n` lowest-score samples. -/
def lowestSelection (s : List Q) (sel : List Nat) (n : Nat) : Prop :=
  sel.length = n ∧ sel.Nodup ∧ (∀ i ∈ sel, i < s.length) ∧
    ∀ i ∈ sel, ∀ j, j < s.length → j ∉ sel → s.getD i 0 ≤ s.getD j 0

/-- Specification predicate: `sel` picks `n` highest-score samples. -/
def highestSelection (s : List Q) (sel : List Nat) (n : Nat) : Prop :=
  sel.length = n ∧ sel.Nodup ∧ (∀ i ∈ sel, i < s.length) ∧
    ∀ i ∈ sel, ∀ j, j < s.length → j ∉ sel → s.getD j 0 ≤ s.getD i 0

/-! ### Ordering infrastructure -/

theorem lexLeb_total : ∀ as bs : List Char, lexLeb as bs = true ∨ lexLeb bs as = true
  | [], [] => .inl rfl
  | [], _ :: _ => .inl rfl
  | _ :: _, [] => .inr rfl
  | a :: as, b :: bs => by
    by_cases h1 : a.toNat < b.toNat
    · left; simp [lexLeb, h1]
    · by_cases h2 : b.toNat < a.toNat
      · right; simp [lexLeb, h2]
      · rcases lexLeb_total as bs with h | h
        · left; simp [lexLeb, h1, h2, h]
        · right; simp [lexLeb, h1, h2, h]

theorem lexLeb_trans : ∀ as bs cs : List Char,
    lexLeb as bs = true → lexLeb bs cs = true → lexLeb as cs = true
  | [], _, _ => fun _ _ => rfl
  | _ :: _, [], _ => fun h _ => by simp [lexLeb] at h
  | _ :: _, _ :: _, [] => fun _ h => by simp [lexLeb] at h
  | a :: as, b :: bs, c :: cs => fun h1 h2 => by
    by_cases hab : a.toNat < b.toNat <;> by_cases hba : b.toNat < a.toNat <;>
      by_cases hbc : b.toNat < c.toNat <;> by_cases hcb : c.toNat < b.toNat <;>
      simp [lexLeb, hab, hba, hbc, hcb] at h1 h2 ⊢ <;>
      first
        | exact Or.inl (by omega)
        | exact Or.inr ⟨by omega, lexLeb_trans as bs cs h1 h2⟩

instance : IsTotal String pyStrLe := ⟨fun a b => lexLeb_total a.data b.data⟩

instance : IsTrans String pyStrLe := ⟨fun a b c => lexLeb_trans a.data b.data c.data⟩

theorem argRel_total (xs : List Q) (i j : Nat) : argRel xs i j ∨ argRel xs j i := by
  rcases lt_trichotomy (xs.getD i 0) (xs.getD j 0) with h | h | h
  · exact .inl (.inl h)
  · rcases Nat.le_total i j with hij | hij
    · exact .inl (.inr ⟨h, hij⟩)
    · exact .inr (.inr ⟨h.symm, hij⟩)
  · exact .inr (.inl h)

theorem argRel_trans (xs : List Q) {i j k : Nat}
    (h1 : argRel xs i j) (h2 : argRel xs j k) : argRel xs i k := by
  rcases h1 with h1 | ⟨e1, l1⟩
  · rcases h2 with h2 | ⟨e2, l2⟩
    · exact .inl (h1.trans h2)
    · exact .inl (e2 ▸ h1)
  · rcases h2 with h2 | ⟨e2, l2⟩
    · exact .inl (e1 ▸ h2)
    · exact .inr ⟨e1.trans e2, l1.trans l2⟩

instance (xs : List Q) : IsTotal Nat (argRel xs) := ⟨argRel_total xs⟩

instance (xs : List Q) : IsTrans Nat (argRel xs) := ⟨fun _ _ _ => argRel_trans xs⟩

/-- If `argRel xs i j` then the score at `i` is at most the score at `j`. -/
theorem argRel_le {xs : List Q} {i j : Nat} (h : argRel xs i j) :
    xs.getD i 0 ≤ xs.getD j 0 := by
  rcases h with h | ⟨h, _⟩
  · exact le_of_lt h
  · exact le_of_eq h

/-! ### `differentGroups` and `setYs` -/

theorem differentGroups_sorted (groups : List String) :
    List.Sorted pyStrLe (differentGroups groups) :=
  List.sorted_insertionSort pyStrLe groups.dedup

theorem differentGroups_nodup (groups : List String) :
    (differentGroups groups).Nodup :=
  ((List.perm_insertionSort pyStrLe groups.dedup).nodup_iff).mpr
    (List.nodup_dedup groups)

theorem mem_differentGroups {groups : List String} {g : String} :
    g ∈ differentGroups groups ↔ g ∈ groups := by
  rw [differentGroups, (List.perm_insertionSort pyStrLe groups.dedup).mem_iff,
    List.mem_dedup]

theorem setYs_sorted (ys : List Int) : List.Sorted (· ≤ ·) (setYs ys) :=
  List.sorted_insertionSort _ ys.dedup

theorem setYs_nodup (ys : List Int) : (setYs ys).Nodup :=
  ((List.perm_insertionSort _ ys.dedup).nodup_iff).mpr (List.nodup_dedup ys)

theorem mem_setYs {ys : List Int} {y : Int} : y ∈ setYs ys ↔ y ∈ ys := by
  rw [setYs, (List.perm_insertionSort _ ys.dedup).mem_iff, List.mem_dedup]

/-! ### `argsort` -/

theorem argsort_perm (xs : List Q) : (argsort xs).Perm (List.range xs.length) :=
  List.perm_insertionSort _ _

theorem argsort_length (xs : List Q) : (argsort xs).length = xs.length := by
  rw [argsort, List.length_insertionSort, List.length_range]

theorem mem_argsort {xs : List Q} {i : Nat} : i ∈ argsort xs ↔ i < xs.length := by
  rw [argsort, (List.perm_insertionSort _ _).mem_iff, List.mem_range]

theorem argsort_nodup (xs : List Q) : (argsort xs).Nodup :=
  ((List.perm_insertionSort _ _).nodup_iff).mpr (List.nodup_range _)

theorem argsort_sorted (xs : List Q) : List.Sorted (argRel xs) (argsort xs) :=
  List.sorted_insertionSort _ _

/-- Indices in the front part of an argsort have scores at most those in the
back part. -/
theorem argsort_take_drop_le (xs : List Q) (n : Nat) {i j : Nat}
    (hi : i ∈ (argsort xs).take n) (hj : j ∈ (argsort xs).drop n) :
    xs.getD i 0 ≤ xs.getD j 0 := by
  have hs : List.Pairwise (argRel xs) (argsort xs) := argsort_sorted xs
  rw [← List.take_append_drop n (argsort xs)] at hs
  exact argRel_le ((List.pairwise_append.mp hs).2.2 i hi j hj)

/-- `order[:n]` for `order = np.argsort(s)` picks `n` lowest-score indices. -/
theorem lowestSelection_sliceFirst (s : List Q) (n : Nat) (hn : n ≤ s.length) :
    lowestSelection s (pySliceFirst (argsort s) n) n := by
  have hlen := argsort_length s
  refine ⟨?_, ?_, ?_, ?_⟩
  · rw [pySliceFirst, List.length_take, hlen]; omega
  · exact (List.take_sublist _ _).nodup (argsort_nodup s)
  · intro i hi
    exact mem_argsort.mp (List.mem_of_mem_take hi)
  · intro i hi j hjlen hjn
    have hj : j ∈ argsort s := mem_argsort.mpr hjlen
    rw [← List.take_append_drop n (argsort s), List.mem_append] at hj
    rcases hj with hj | hj
    · exact absurd hj hjn
    · exact argsort_take_drop_le s n hi hj

/-- `order[-n:]` for `order = np.argsort(s)` and `n ≥ 1` picks `n`
highest-score indices. -/
theorem highestSelection_sliceLast (s : List Q) (n : Nat) (hn0 : 0 < n)
    (hn : n ≤ s.length) :
    highestSelection s (pySliceLast (argsort s) n) n := by
  have hlen := argsort_length s
  rw [pySliceLast, if_neg (by omega)]
  refine ⟨?_, ?_, ?_, ?_⟩
  · rw [List.length_drop, hlen]; omega
  · exact (List.drop_sublist _ _).nodup (argsort_nodup s)
  · intro i hi
    exact mem_argsort.mp (List.mem_of_mem_drop hi)
  · intro i hi j hjlen hjn
    have hj : j ∈ argsort s := mem_argsort.mpr hjlen
    rw [← List.take_append_drop ((argsort s).length - n) (argsort s),
      List.mem_append] at hj
    rcases hj with hj | hj
    · exact argsort_take_drop_le s _ hj hi
    · exact absurd hj hjn

/-! ### Loop and grid lemmas -/

theorem getD_map_default {α β : Type} [Inhabited α] [Inhabited β]
    (f : α → β) (l : List α) {k : Nat} (hk : k < l.length) :
    (l.map f).getD k default = f (l.getD k default) := by
  rw [List.getD_eq_getElem _ _ (by simpa using hk), List.getD_eq_getElem _ _ hk,
    List.getElem_map]

theorem histLoop_length (s : List Q) (gls : List String) :
    ∀ (l : List String) (bins : Bins) (d : Bool),
      (histLoop s gls l bins d).length = l.length
  | [], _, _ => rfl
  | _ :: gs, bins, d => by
    simp [histLoop, histLoop_length s gls gs]

theorem histLoop_getD (s : List Q) (gls : List String) :
    ∀ (l : List String) (bins : Bins) (d : Bool) (k : Nat), k < l.length →
      ∃ b, (histLoop s gls l bins d).getD k default =
        { data := selectByGroup s gls (l.getD k ""), binsArg := b,
          label := l.getD k "", density := d }
  | [], _, _, k => by simp
  | _ :: _, bins, _, 0 => fun _ => ⟨bins, rfl⟩
  | g :: gs, bins, d, (k + 1) => fun hk => by
    simpa [histLoop] using
      histLoop_getD s gls gs (.edges (histEdges bins (selectByGroup s gls g))) d k
        (by simpa using hk)

theorem histLoop_binsArg_const (s : List Q) (gls : List String) :
    ∀ (l : List String) (e : List Q) (d : Bool),
      ∀ hc ∈ histLoop s gls l (.edges e) d, hc.binsArg = .edges e
  | [], _, _ => by simp [histLoop]
  | g :: gs, e, d => by
    intro hc hmem
    rcases List.mem_cons.mp (by simpa [histLoop] using hmem) with h | h
    · subst h; rfl
    · exact histLoop_binsArg_const s gls gs e d hc (by simpa [histEdges] using h)

theorem linspace_length (a b : Q) (n : Nat) : (linspace a b n).length = n := by
  unfold linspace
  rw [List.length_map, List.length_range]

theorem linspace_getD (a b : Q) {n i : Nat} (h2 : 2 ≤ n) (hi : i < n) :
    (linspace a b n).getD i 0 = a + (b - a) * i / ((n : Q) - 1) := by
  have hlen : i < (linspace a b n).length := by rw [linspace_length]; exact hi
  rw [List.getD_eq_getElem _ _ hlen]
  unfold linspace
  rw [List.getElem_map, List.getElem_range, if_neg (by omega)]

/-- The KDE evaluation grid: point `i` of `np.linspace(0.0, M, 1000)`. -/
theorem linspace_grid (M : Q) {i : Nat} (hi : i < 1000) :
    (linspace 0 M 1000).getD i 0 = (i : Q) * M / 999 := by
  rw [linspace_getD 0 M (by omega) hi]
  norm_num
  ring

theorem dedup_replicate (a : String) :
    ∀ n : Nat, 0 < n → (List.replicate n a).dedup = [a]
  | 1, _ => by simp
  | (n + 2), _ => by
    rw [List.replicate_succ, List.dedup_cons_of_mem (by simp [List.mem_replicate])]
    exact dedup_replicate a (n + 1) (by omega)

theorem differentGroups_replicate {n : Nat} (hn : 0 < n) :
    differentGroups (List.replicate n "dummy") = ["dummy"] := by
  rw [differentGroups, dedup_replicate _ n hn]
  rfl

theorem selectByGroup_replicate (s : List Q) :
    selectByGroup s (List.replicate s.length "dummy") "dummy" = s := by
  induction s with
  | nil => rfl
  | cons x xs ih =>
    simpa [selectByGroup, List.replicate_succ] using ih

/-! ### Unfolding the plotting functions on successful conversion -/

theorem plot_histogram_ok_kde {scores : PyObj} {s : List Q}
    (groups : Option (List String)) (bins : Bins) (density : Bool) (bw : Q)
    (hconv : convert_scores_to_numpy scores = .ok s)
    (hlen : (effectiveGroups s groups).length = s.length) :
    plot_histogram_of_informativeness scores groups bins density true bw =
      .ok { cmds := (kdeLoop s (effectiveGroups s groups) bw
              (differentGroups (effectiveGroups s groups))).map PlotCmd.kdeCmd,
            legendCalled := groups.isSome,
            ylabel := "Density",
            createdFig := 0, createdAx := 0, ret := (0, some 0) } := by
  simp only [plot_histogram_of_informativeness, hconv]
  rw [if_neg (not_ne_iff.mpr hlen)]
  simp

theorem plot_histogram_ok_hist {scores : PyObj} {s : List Q}
    (groups : Option (List String)) (bins : Bins) (density : Bool) (bw : Q)
    (hconv : convert_scores_to_numpy scores = .ok s)
    (hlen : (effectiveGroups s groups).length = s.length) :
    plot_histogram_of_informativeness scores groups bins density false bw =
      .ok { cmds := (histLoop s (effectiveGroups s groups)
              (differentGroups (effectiveGroups s groups)) bins
              density).map PlotCmd.histCmd,
            legendCalled := groups.isSome,
            ylabel := if density then "Density" else "Count",
            createdFig := 0, createdAx := 0, ret := (0, some 0) } := by
  simp only [plot_histogram_of_informativeness, hconv]
  rw [if_neg (not_ne_iff.mpr hlen)]
  simp

theorem plot_examples_ok {scores : PyObj} {s : List Q}
    (least_informative : Bool) (n : Nat)
    (hconv : convert_scores_to_numpy scores = .ok s) :
    plot_least_or_most_informative_examples scores least_informative n =
      .ok { indices := if least_informative then pySliceFirst (argsort s) n
                       else pySliceLast (argsort s) n,
            createdFig := 0, createdAx := 0, ret := (0, some 0) } := by
  simp only [plot_least_or_most_informative_examples, hconv]

theorem plot_summary_ok {scores : PyObj} {s : List Q} (ys : List Int)
    (hconv : convert_scores_to_numpy scores = .ok s)
    (hys : ys.length = s.length) (h10 : 10 ≤ s.length) :
    plot_summary_of_informativeness scores ys =
      .ok { histCalls := (setYs ys).map (fun y =>
              { data := selectByLabel s ys y, label := toString y }),
            least_informative := pySliceFirst (argsort s) 10,
            most_informative := pySliceLast (argsort s) 10,
            createdFig := 0, ret := (0, none) } := by
  simp only [plot_summary_of_informativeness, hconv]
  rw [if_neg (not_ne_iff.mpr hys), if_neg (by omega)]

/-! ### Claims -/

/-- Claim C1: for any scores input convertible to a numeric array,
`plot_least_or_most_informative_examples` ranks sample indices in ascending
score order and passes to the dataset-display helper exactly `n_examples`
indices — lowest-score ones when `least_informative` is true, highest-score
ones otherwise — and `plot_summary_of_informativeness` selects the 10
lowest-score and 10 highest-score indices the same way.  (As the display of
an `n_examples`-image row, resp. two 10-image rows, requires, the dataset is
assumed to have at least `n_examples`, resp. 10, samples.) -/
theorem C1_rank_and_select (scores : PyObj) (s : List Q) (n : Nat) (ys : List Int)
    (hconv : convert_scores_to_numpy scores = .ok s)
    (hn : 0 < n) (hns : n ≤ s.length)
    (hys : ys.length = s.length) (h10 : 10 ≤ s.length) :
    (∃ out, plot_least_or_most_informative_examples scores true n = .ok out ∧
      lowestSelection s out.indices n) ∧
    (∃ out, plot_least_or_most_informative_examples scores false n = .ok out ∧
      highestSelection s out.indices n) ∧
    (∃ out, plot_summary_of_informativeness scores ys = .ok out ∧
      lowestSelection s out.least_informative 10 ∧
      highestSelection s out.most_informative 10) := by
  refine ⟨⟨_, plot_examples_ok true n hconv, ?_⟩,
    ⟨_, plot_examples_ok false n hconv, ?_⟩,
    ⟨_, plot_summary_ok ys hconv hys h10, ?_, ?_⟩⟩
  · exact lowestSelection_sliceFirst s n hns
  · exact highestSelection_sliceLast s n hn hns
  · exact lowestSelection_sliceFirst s 10 h10
  · exact highestSelection_sliceLast s 10 (by omega) h10

theorem C1_rank_and_select_witness :
    (∃ out, plot_least_or_most_informative_examples
        (.npArray [5, 1, 4, 2, 3, 6, 0, 9, 7, 8]) true 3 = .ok out ∧
      lowestSelection [5, 1, 4, 2, 3, 6, 0, 9, 7, 8] out.indices 3) ∧
    (∃ out, plot_least_or_most_informative_examples
        (.npArray [5, 1, 4, 2, 3, 6, 0, 9, 7, 8]) false 3 = .ok out ∧
      highestSelection [5, 1, 4, 2, 3, 6, 0, 9, 7, 8] out.indices 3) ∧
    (∃ out, plot_summary_of_informativeness
        (.npArray [5, 1, 4, 2, 3, 6, 0, 9, 7, 8]) [0, 1, 0, 1, 0, 1, 0, 1, 0, 1] =
          .ok out ∧
      lowestSelection [5, 1, 4, 2, 3, 6, 0, 9, 7, 8] out.least_informative 10 ∧
      highestSelection [5, 1, 4, 2, 3, 6, 0, 9, 7, 8] out.most_informative 10) :=
  C1_rank_and_select (.npArray [5, 1, 4, 2, 3, 6, 0, 9, 7, 8])
    [5, 1, 4, 2, 3, 6, 0, 9, 7, 8] 3 [0, 1, 0, 1, 0, 1, 0, 1, 0, 1]
    rfl (by decide) (by decide) (by decide) (by decide)

/-- Claim C10: `convert_scores_to_numpy` applied to the empty Python list
fails by evaluating `scores[0]` before any type check can succeed, raising
`IndexError` — not the `ValueError` of the declared failure branch. -/
theorem C10_empty_list_indexerror :
    convert_scores_to_numpy (.pyList []) = .error .indexError ∧
    ∀ msg : String,
      convert_scores_to_numpy (.pyList []) ≠ .error (.valueError msg) :=
  ⟨rfl, fun _ h => PyErr.noConfusion (Except.error.inj h)⟩

/-- Claim C4 counterexample: `[tensor, float]` is a non-empty list whose
first element is a torch tensor — one of the three shapes the claim says is
accepted and flattened — yet `convert_scores_to_numpy` neither returns an
array nor raises `ValueError`: `torch.stack` raises `TypeError` on the
non-tensor later element. -/
theorem C4_counterexample :
    PyObj.isTensor (PyObj.tensor [1]) = true ∧
    convert_scores_to_numpy (.pyList [.tensor [1], .pyFloat 2]) =
      .error .typeError :=
  ⟨rfl, rfl⟩

theorem tensorDatas_map_tensor :
    ∀ ts : List (List Q), tensorDatas (ts.map PyObj.tensor) = some ts
  | [] => rfl
  | t :: ts => by
    simp [tensorDatas, PyObj.tensorData, tensorDatas_map_tensor ts]

/-- An object that is not a tensor has no tensor data. -/
theorem tensorData_eq_none {x : PyObj} (hx : x.isTensor = false) :
    x.tensorData = none := by
  cases x <;> first | rfl | exact Bool.noConfusion hx

/-- `torch.stack` finds no tensor data as soon as one element of the list is
not a tensor. -/
theorem tensorDatas_eq_none :
    ∀ es : List PyObj, ∀ x ∈ es, x.isTensor = false → tensorDatas es = none
  | [] => fun x hmem _ => absurd hmem (List.not_mem_nil x)
  | e :: es => fun x hmem hx => by
    rcases List.mem_cons.mp hmem with rfl | hmem2
    · simp [tensorDatas, tensorData_eq_none hx]
    · have ih := tensorDatas_eq_none es x hmem2 hx
      cases he : e.tensorData <;> simp [tensorDatas, ih, he]

/-- Claim C4, amended: the accepted shapes are a numpy array, a torch
tensor, and a non-empty list of torch tensors of a common shape; each is
returned as the flattened array of all its elements.  Any list whose first
element is a tensor but that contains a non-tensor raises `TypeError` (from
`torch.stack`), and any other input — float, string, `None`, or a list
headed by a non-tensor — raises `ValueError` (except the empty list, which
raises `IndexError`; see C10). -/
theorem C4_amended_accepted_shapes (d : List Q) (ts : List (List Q))
    (hne : ts ≠ [])
    (hsh : ∀ t ∈ ts, ∀ u ∈ ts, t.length = u.length) :
    convert_scores_to_numpy (.npArray d) = .ok d ∧
    convert_scores_to_numpy (.tensor d) = .ok d ∧
    convert_scores_to_numpy (.pyList (ts.map PyObj.tensor)) = .ok ts.flatten ∧
    (∀ x : Q, convert_scores_to_numpy (.pyFloat x) =
      .error (.valueError "Cannot convert scores to a numpy array.")) ∧
    (convert_scores_to_numpy .pyNone =
      .error (.valueError "Cannot convert scores to a numpy array.")) ∧
    (∀ st : String, convert_scores_to_numpy (.pyStr st) =
      .error (.valueError "Cannot convert scores to a numpy array.")) ∧
    (∀ (e : PyObj) (es : List PyObj), e.isTensor = false →
      convert_scores_to_numpy (.pyList (e :: es)) =
        .error (.valueError "Cannot convert scores to a numpy array.")) ∧
    (∀ (e : PyObj) (es : List PyObj), e.isTensor = true →
      (∃ x ∈ es, x.isTensor = false) →
      convert_scores_to_numpy (.pyList (e :: es)) = .error .typeError) := by
  obtain ⟨t0, rest, rfl⟩ : ∃ t0 rest, ts = t0 :: rest := by
    cases ts with
    | nil => cases hne rfl
    | cons a l => exact ⟨a, l, rfl⟩
  refine ⟨rfl, rfl, ?_, fun x => rfl, rfl, fun st => rfl, ?_, ?_⟩
  · have hdatas : tensorDatas (PyObj.tensor t0 :: rest.map PyObj.tensor) =
        some (t0 :: rest) := tensorDatas_map_tensor (t0 :: rest)
    have hall : rest.all (fun x => x.length = t0.length) = true := by
      rw [List.all_eq_true]
      intro x hx
      exact decide_eq_true (hsh x (by simp [hx]) t0 (by simp))
    show stackFlatten (PyObj.tensor t0 :: rest.map PyObj.tensor) = _
    unfold stackFlatten
    rw [hdatas]
    show (if rest.all (fun x => x.length = t0.length) = true then
        Except.ok ((t0 :: rest).flatten)
      else Except.error PyErr.runtimeError) = Except.ok ((t0 :: rest).flatten)
    rw [if_pos hall]
  · intro e es he
    simp [convert_scores_to_numpy, he]
  · intro e es he hex
    obtain ⟨x, hmem, hx⟩ := hex
    have hnone : tensorDatas (e :: es) = none :=
      tensorDatas_eq_none (e :: es) x (List.mem_cons_of_mem e hmem) hx
    show convert_scores_to_numpy (.pyList (e :: es)) = _
    simp only [convert_scores_to_numpy]
    rw [if_pos he]
    unfold stackFlatten
    rw [hnone]

theorem C4_amended_accepted_shapes_witness :
    convert_scores_to_numpy (.npArray [1, 2]) = .ok [1, 2] ∧
    convert_scores_to_numpy (.tensor [1, 2]) = .ok [1, 2] ∧
    convert_scores_to_numpy (.pyList ([[1, 2], [3, 4]].map PyObj.tensor)) =
      .ok ([[1, 2], [3, 4]] : List (List Q)).flatten ∧
    (∀ x : Q, convert_scores_to_numpy (.pyFloat x) =
      .error (.valueError "Cannot convert scores to a numpy array.")) ∧
    (convert_scores_to_numpy .pyNone =
      .error (.valueError "Cannot convert scores to a numpy array.")) ∧
    (∀ st : String, convert_scores_to_numpy (.pyStr st) =
      .error (.valueError "Cannot convert scores to a numpy array.")) ∧
    (∀ (e : PyObj) (es : List PyObj), e.isTensor = false →
      convert_scores_to_numpy (.pyList (e :: es)) =
        .error (.valueError "Cannot convert scores to a numpy array.")) ∧
    (∀ (e : PyObj) (es : List PyObj), e.isTensor = true →
      (∃ x ∈ es, x.isTensor = false) →
      convert_scores_to_numpy (.pyList (e :: es)) = .error .typeError) :=
  C4_amended_accepted_shapes [1, 2] [[1, 2], [3, 4]] (by decide) (by decide)

theorem kdeLoop_length (s : List Q) (gls : List String) (bw : Q)
    (l : List String) : (kdeLoop s gls bw l).length = l.length := by
  unfold kdeLoop
  rw [List.length_map]

theorem kdeLoop_getD (s : List Q) (gls : List String) (bw : Q)
    (l : List String) {k : Nat} (hk : k < l.length) :
    (kdeLoop s gls bw l).getD k default =
      { fitData := selectByGroup s gls (l.getD k ""), bandwidth := bw,
        xs := linspace 0 (listMax s) 1000, label := l.getD k "" } := by
  unfold kdeLoop
  rw [getD_map_default _ _ hk]
  rfl

theorem histLoop_cons_spec (s : List Q) (gls : List String) (g0 : String)
    (tl : List String) (bins : Bins) (d : Bool) :
    histLoop s gls (g0 :: tl) bins d =
      { data := selectByGroup s gls g0, binsArg := bins, label := g0,
        density := d } ::
        histLoop s gls tl (.edges (histEdges bins (selectByGroup s gls g0))) d :=
  rfl

/-- Every call of the non-density loop uses, in effect, the bin edges of the
first group's histogram. -/
theorem histLoop_shared_edges (s : List Q) (gls : List String) (g0 : String)
    (tl : List String) (bins : Bins) (d : Bool) :
    ∀ hc ∈ histLoop s gls (g0 :: tl) bins d,
      histEdges hc.binsArg hc.data = histEdges bins (selectByGroup s gls g0) := by
  intro hc hmem
  rw [histLoop_cons_spec] at hmem
  rcases List.mem_cons.mp hmem with rfl | hmem2
  · rfl
  · rw [histLoop_binsArg_const s gls tl _ d hc hmem2]
    rfl

/-- Claim C3: with `use_density_estimation=True`,
`plot_histogram_of_informativeness` draws per-group Gaussian kernel density
estimates with the given bandwidth instead of raw histograms (no `ax.hist`
call is issued), and the `density` flag is forced to `True`, so the y-axis
is labelled 'Density' whatever `density` argument was passed. -/
theorem C3_density_estimation_forces_density (scores : PyObj) (s : List Q)
    (groups : Option (List String)) (bins : Bins) (density : Bool) (bw : Q)
    (hconv : convert_scores_to_numpy scores = .ok s)
    (hlen : (effectiveGroups s groups).length = s.length) :
    ∃ out, plot_histogram_of_informativeness scores groups bins density true bw =
        .ok out ∧
      out.ylabel = "Density" ∧
      (∀ c ∈ out.cmds, ∃ kc, c = PlotCmd.kdeCmd kc ∧ kc.bandwidth = bw ∧
        kc.fitData = selectByGroup s (effectiveGroups s groups) kc.label ∧
        kc.label ∈ differentGroups (effectiveGroups s groups)) ∧
      (∀ hc : HistCall, PlotCmd.histCmd hc ∉ out.cmds) := by
  refine ⟨_, plot_histogram_ok_kde groups bins density bw hconv hlen, rfl, ?_, ?_⟩
  · intro c hcmem
    rcases List.mem_map.mp hcmem with ⟨kc, hkc, rfl⟩
    rcases List.mem_map.mp hkc with ⟨g, hg, rfl⟩
    exact ⟨_, rfl, rfl, rfl, hg⟩
  · intro hc hmem
    rcases List.mem_map.mp hmem with ⟨kc, _, hk⟩
    exact PlotCmd.noConfusion hk

theorem C3_density_estimation_forces_density_witness :
    ∃ out, plot_histogram_of_informativeness (.npArray [1, 2])
        (some ["a", "b"]) (.count 50) false true (1 / 5000) = .ok out ∧
      out.ylabel = "Density" ∧
      (∀ c ∈ out.cmds, ∃ kc, c = PlotCmd.kdeCmd kc ∧ kc.bandwidth = 1 / 5000 ∧
        kc.fitData = selectByGroup [1, 2]
          (effectiveGroups [1, 2] (some ["a", "b"])) kc.label ∧
        kc.label ∈ differentGroups (effectiveGroups [1, 2] (some ["a", "b"]))) ∧
      (∀ hc : HistCall, PlotCmd.histCmd hc ∉ out.cmds) :=
  C3_density_estimation_forces_density (.npArray [1, 2]) [1, 2]
    (some ["a", "b"]) (.count 50) false (1 / 5000) rfl rfl

set_option maxRecDepth 4000 in
/-- Claim C6: in the density-estimation branch every group's curve is
evaluated on the same grid of 1000 evenly spaced points running from `0.0`
to the maximum over all informativeness scores (the global maximum, so any
negative scores lie outside the grid, which starts at 0). -/
theorem C6_common_kde_grid (scores : PyObj) (s : List Q)
    (groups : Option (List String)) (bins : Bins) (density : Bool) (bw : Q)
    (hconv : convert_scores_to_numpy scores = .ok s)
    (hlen : (effectiveGroups s groups).length = s.length) :
    ∃ out, plot_histogram_of_informativeness scores groups bins density true bw =
        .ok out ∧
      ∀ c ∈ out.cmds, ∃ kc, c = PlotCmd.kdeCmd kc ∧
        kc.xs = linspace 0 (listMax s) 1000 ∧
        kc.xs.length = 1000 ∧
        (∀ i, i < 1000 → kc.xs.getD i 0 = (i : Q) * listMax s / 999) ∧
        kc.xs.getD 0 0 = 0 ∧
        kc.xs.getD 999 0 = listMax s := by
  refine ⟨_, plot_histogram_ok_kde groups bins density bw hconv hlen, ?_⟩
  intro c hcmem
  rcases List.mem_map.mp hcmem with ⟨kc, hkc, rfl⟩
  rcases List.mem_map.mp hkc with ⟨g, hg, rfl⟩
  refine ⟨_, rfl, rfl, linspace_length _ _ _,
    fun i hi => linspace_grid _ hi, ?_, ?_⟩
  · rw [linspace_grid (listMax s) (by omega : (0 : Nat) < 1000)]
    simp
  · rw [linspace_grid (listMax s) (by omega : (999 : Nat) < 1000)]
    have h999 : ((999 : Nat) : Q) = 999 := by norm_num
    rw [h999, mul_comm, mul_div_assoc, div_self (by norm_num), mul_one]

theorem C6_common_kde_grid_witness :
    ∃ out, plot_histogram_of_informativeness (.npArray [2, 5, 3])
        (some ["x", "y", "x"]) (.count 50) false true (1 / 5000) = .ok out ∧
      ∀ c ∈ out.cmds, ∃ kc, c = PlotCmd.kdeCmd kc ∧
        kc.xs = linspace 0 (listMax [2, 5, 3]) 1000 ∧
        kc.xs.length = 1000 ∧
        (∀ i, i < 1000 → kc.xs.getD i 0 = (i : Q) * listMax [2, 5, 3] / 999) ∧
        kc.xs.getD 0 0 = 0 ∧
        kc.xs.getD 999 0 = listMax [2, 5, 3] :=
  C6_common_kde_grid (.npArray [2, 5, 3]) [2, 5, 3] (some ["x", "y", "x"])
    (.count 50) false (1 / 5000) rfl rfl

/-- Claim C2: for a score array and an equally long list of group labels,
`plot_histogram_of_informativeness` draws exactly one histogram (or, under
density estimation, one density curve) per distinct group label, iterating
the distinct labels in sorted order, each computed from precisely the scores
whose label equals that group. -/
theorem C2_one_plot_per_group (scores : PyObj) (s : List Q)
    (groups : List String) (bins : Bins) (density ude : Bool) (bw : Q)
    (hconv : convert_scores_to_numpy scores = .ok s)
    (hlen : groups.length = s.length) :
    ∃ out, plot_histogram_of_informativeness scores (some groups) bins
        density ude bw = .ok out ∧
      out.cmds.length = (differentGroups groups).length ∧
      List.Sorted pyStrLe (differentGroups groups) ∧
      (differentGroups groups).Nodup ∧
      (∀ g, g ∈ differentGroups groups ↔ g ∈ groups) ∧
      ∀ k, k < (differentGroups groups).length →
        (ude = true → out.cmds.getD k default =
          PlotCmd.kdeCmd ⟨selectByGroup s groups ((differentGroups groups).getD k ""),
            bw, linspace 0 (listMax s) 1000,
            (differentGroups groups).getD k ""⟩) ∧
        (ude = false → ∃ b, out.cmds.getD k default =
          PlotCmd.histCmd ⟨selectByGroup s groups ((differentGroups groups).getD k ""),
            b, (differentGroups groups).getD k "",
            density⟩) := by
  cases ude with
  | true =>
    have hok := plot_histogram_ok_kde (some groups) bins density bw hconv hlen
    rw [show effectiveGroups s (some groups) = groups from rfl] at hok
    refine ⟨_, hok,
      ?_, differentGroups_sorted groups, differentGroups_nodup groups,
      fun g => mem_differentGroups, ?_⟩
    · rw [List.length_map, kdeLoop_length]
    · intro k hk
      refine ⟨fun _ => ?_, fun hcon => Bool.noConfusion hcon⟩
      rw [getD_map_default PlotCmd.kdeCmd _ (by rw [kdeLoop_length]; exact hk),
        kdeLoop_getD s groups bw _ hk]
  | false =>
    have hok := plot_histogram_ok_hist (some groups) bins density bw hconv hlen
    rw [show effectiveGroups s (some groups) = groups from rfl] at hok
    refine ⟨_, hok,
      ?_, differentGroups_sorted groups, differentGroups_nodup groups,
      fun g => mem_differentGroups, ?_⟩
    · rw [List.length_map, histLoop_length]
    · intro k hk
      refine ⟨fun hcon => Bool.noConfusion hcon, fun _ => ?_⟩
      obtain ⟨b, hb⟩ :=
        histLoop_getD s groups (differentGroups groups) bins density k hk
      refine ⟨b, ?_⟩
      rw [getD_map_default PlotCmd.histCmd _ (by rw [histLoop_length]; exact hk),
        hb]

theorem C2_one_plot_per_group_witness :
    ∃ out, plot_histogram_of_informativeness (.npArray [1, 2, 3])
        (some ["b", "a", "b"]) (.count 50) false false (1 / 5000) = .ok out ∧
      out.cmds.length = (differentGroups ["b", "a", "b"]).length ∧
      List.Sorted pyStrLe (differentGroups ["b", "a", "b"]) ∧
      (differentGroups ["b", "a", "b"]).Nodup ∧
      (∀ g, g ∈ differentGroups ["b", "a", "b"] ↔ g ∈ ["b", "a", "b"]) ∧
      ∀ k, k < (differentGroups ["b", "a", "b"]).length →
        (false = true → out.cmds.getD k default =
          PlotCmd.kdeCmd ⟨selectByGroup [1, 2, 3] ["b", "a", "b"] ((differentGroups ["b", "a", "b"]).getD k ""),
            1 / 5000, linspace 0 (listMax [1, 2, 3]) 1000,
            (differentGroups ["b", "a", "b"]).getD k ""⟩) ∧
        (false = false → ∃ b, out.cmds.getD k default =
          PlotCmd.histCmd ⟨selectByGroup [1, 2, 3] ["b", "a", "b"] ((differentGroups ["b", "a", "b"]).getD k ""),
            b, (differentGroups ["b", "a", "b"]).getD k "",
            false⟩) :=
  C2_one_plot_per_group (.npArray [1, 2, 3]) [1, 2, 3] ["b", "a", "b"]
    (.count 50) false false (1 / 5000) rfl rfl

/-- Claim C5: in the non-density branch, `bins` is rebound in the loop to
the edge array returned by the first `ax.hist` call, so with two or more
distinct groups every call after the first is histogrammed with exactly the
bin edges computed from the first group's scores, and all per-group
histograms share identical effective bin edges. -/
theorem C5_bins_rebinding (scores : PyObj) (s : List Q) (groups : List String)
    (bins : Bins) (density : Bool) (bw : Q)
    (hconv : convert_scores_to_numpy scores = .ok s)
    (hlen : groups.length = s.length)
    (h2 : 2 ≤ (differentGroups groups).length) :
    ∃ out, plot_histogram_of_informativeness scores (some groups) bins
        density false bw = .ok out ∧
      ∃ hc0, out.cmds.getD 0 default = PlotCmd.histCmd hc0 ∧
        hc0.binsArg = bins ∧
        hc0.data = selectByGroup s groups ((differentGroups groups).getD 0 "") ∧
        (∀ k, 1 ≤ k → k < out.cmds.length →
          ∃ hc, out.cmds.getD k default = PlotCmd.histCmd hc ∧
            hc.binsArg = .edges (histEdges bins hc0.data)) ∧
        (∀ k, k < out.cmds.length →
          ∃ hc, out.cmds.getD k default = PlotCmd.histCmd hc ∧
            histEdges hc.binsArg hc.data = histEdges bins hc0.data) := by
  obtain ⟨g0, tl, hdg⟩ : ∃ g0 tl, differentGroups groups = g0 :: tl := by
    cases hcase : differentGroups groups with
    | nil => rw [hcase] at h2; simp at h2
    | cons a l => exact ⟨a, l, rfl⟩
  have hok := plot_histogram_ok_hist (some groups) bins density bw hconv hlen
  rw [show effectiveGroups s (some groups) = groups from rfl, hdg] at hok
  refine ⟨_, hok, ⟨selectByGroup s groups g0, bins, g0, density⟩, rfl, rfl,
    ?_, ?_, ?_⟩
  · rw [hdg]
    rfl
  · intro k hk1 hklen
    obtain ⟨j, rfl⟩ : ∃ j, k = j + 1 := ⟨k - 1, by omega⟩
    have hjlen : j < (histLoop s groups tl
        (Bins.edges (histEdges bins (selectByGroup s groups g0)))
        density).length := by
      have h1 : (j + 1) <
          ((histLoop s groups (g0 :: tl) bins density).map
            PlotCmd.histCmd).length := hklen
      rw [List.length_map, histLoop_cons_spec, List.length_cons,
        histLoop_length] at h1
      rw [histLoop_length]
      omega
    refine ⟨(histLoop s groups tl
        (Bins.edges (histEdges bins (selectByGroup s groups g0)))
        density).getD j default, ?_, ?_⟩
    · show (((histLoop s groups (g0 :: tl) bins density).map
        PlotCmd.histCmd).getD (j + 1) default) = _
      rw [histLoop_cons_spec, List.map_cons, List.getD_cons_succ,
        getD_map_default _ _ hjlen]
    · apply histLoop_binsArg_const s groups tl _ density
      rw [List.getD_eq_getElem _ _ hjlen]
      exact List.getElem_mem _
  · intro k hklen
    have hklen2 : k < (histLoop s groups (g0 :: tl) bins density).length := by
      have h1 : k < ((histLoop s groups (g0 :: tl) bins density).map
          PlotCmd.histCmd).length := hklen
      rwa [List.length_map] at h1
    refine ⟨(histLoop s groups (g0 :: tl) bins density).getD k default,
      getD_map_default _ _ hklen2, ?_⟩
    apply histLoop_shared_edges s groups g0 tl bins density
    rw [List.getD_eq_getElem _ _ hklen2]
    exact List.getElem_mem _

theorem C5_bins_rebinding_witness :
    ∃ out, plot_histogram_of_informativeness (.npArray [1, 2, 3])
        (some ["b", "a", "b"]) (.count 50) false false (1 / 5000) = .ok out ∧
      ∃ hc0, out.cmds.getD 0 default = PlotCmd.histCmd hc0 ∧
        hc0.binsArg = .count 50 ∧
        hc0.data = selectByGroup [1, 2, 3] ["b", "a", "b"]
          ((differentGroups ["b", "a", "b"]).getD 0 "") ∧
        (∀ k, 1 ≤ k → k < out.cmds.length →
          ∃ hc, out.cmds.getD k default = PlotCmd.histCmd hc ∧
            hc.binsArg = .edges (histEdges (.count 50) hc0.data)) ∧
        (∀ k, k < out.cmds.length →
          ∃ hc, out.cmds.getD k default = PlotCmd.histCmd hc ∧
            histEdges hc.binsArg hc.data = histEdges (.count 50) hc0.data) :=
  C5_bins_rebinding (.npArray [1, 2, 3]) [1, 2, 3] ["b", "a", "b"]
    (.count 50) false (1 / 5000) rfl rfl (by decide)

/-- Claim C7: with `groups=None` all scores form a single group — exactly
one histogram (or one density curve) is drawn over the full score array —
and no legend is added; when `groups` is provided, `ax.legend()` is called.
(The scores are assumed non-empty, as fitting a KDE or histogramming an
empty array fails in the libraries.) -/
theorem C7_groups_none_single_plot (scores : PyObj) (s : List Q) (bins : Bins)
    (density ude : Bool) (bw : Q)
    (hconv : convert_scores_to_numpy scores = .ok s) (hne : s ≠ []) :
    (∃ out, plot_histogram_of_informativeness scores none bins density ude bw =
        .ok out ∧
      out.legendCalled = false ∧
      (ude = false → out.cmds =
        [PlotCmd.histCmd ⟨s, bins, "dummy", density⟩]) ∧
      (ude = true → out.cmds =
        [PlotCmd.kdeCmd ⟨s, bw, linspace 0 (listMax s) 1000, "dummy"⟩])) ∧
    ∀ groups : List String, groups.length = s.length →
      ∃ out, plot_histogram_of_informativeness scores (some groups) bins
          density ude bw = .ok out ∧ out.legendCalled = true := by
  have hrep : (effectiveGroups s none).length = s.length := by
    simp [effectiveGroups]
  have hpos : 0 < s.length := List.length_pos.mpr hne
  constructor
  · cases ude with
    | false =>
      refine ⟨_, plot_histogram_ok_hist none bins density bw hconv hrep, rfl,
        fun _ => ?_, fun hcon => Bool.noConfusion hcon⟩
      show (histLoop s (effectiveGroups s none)
        (differentGroups (effectiveGroups s none)) bins density).map
          PlotCmd.histCmd = _
      rw [show effectiveGroups s none = List.replicate s.length "dummy" from rfl,
        differentGroups_replicate hpos, histLoop_cons_spec,
        selectByGroup_replicate]
      rfl
    | true =>
      refine ⟨_, plot_histogram_ok_kde none bins density bw hconv hrep, rfl,
        fun hcon => Bool.noConfusion hcon, fun _ => ?_⟩
      show (kdeLoop s (effectiveGroups s none) bw
        (differentGroups (effectiveGroups s none))).map PlotCmd.kdeCmd = _
      rw [show effectiveGroups s none = List.replicate s.length "dummy" from rfl,
        differentGroups_replicate hpos]
      unfold kdeLoop
      rw [List.map_cons, List.map_nil, List.map_cons, List.map_nil,
        selectByGroup_replicate]
  · intro groups hg
    cases ude with
    | false =>
      exact ⟨_, plot_histogram_ok_hist (some groups) bins density bw hconv hg,
        rfl⟩
    | true =>
      exact ⟨_, plot_histogram_ok_kde (some groups) bins density bw hconv hg,
        rfl⟩

theorem C7_groups_none_single_plot_witness :
    (∃ out, plot_histogram_of_informativeness (.npArray [1, 2]) none
        (.count 50) false false (1 / 5000) = .ok out ∧
      out.legendCalled = false ∧
      (false = false → out.cmds =
        [PlotCmd.histCmd ⟨[1, 2], .count 50, "dummy", false⟩]) ∧
      (false = true → out.cmds =
        [PlotCmd.kdeCmd ⟨[1, 2], 1 / 5000,
          linspace 0 (listMax [1, 2]) 1000, "dummy"⟩])) ∧
    ∀ groups : List String, groups.length = ([1, 2] : List Q).length →
      ∃ out, plot_histogram_of_informativeness (.npArray [1, 2]) (some groups)
          (.count 50) false false (1 / 5000) = .ok out ∧
        out.legendCalled = true :=
  C7_groups_none_single_plot (.npArray [1, 2]) [1, 2] (.count 50) false false
    (1 / 5000) rfl (by decide)

/-- Claim C8: each public plotting function returns a pair whose first
component is the figure it created from the score array; for
`plot_histogram_of_informativeness` and
`plot_least_or_most_informative_examples` the second component is the
associated axes, while `plot_summary_of_informativeness` returns `None` as
its second component. -/
theorem C8_return_figure_pairs (scores : PyObj) (s : List Q)
    (groups : Option (List String)) (bins : Bins) (density ude : Bool) (bw : Q)
    (least : Bool) (n : Nat) (ys : List Int)
    (hconv : convert_scores_to_numpy scores = .ok s)
    (hlen : (effectiveGroups s groups).length = s.length)
    (hys : ys.length = s.length) (h10 : 10 ≤ s.length) :
    (∃ out, plot_histogram_of_informativeness scores groups bins density ude bw =
        .ok out ∧ out.ret = (out.createdFig, some out.createdAx)) ∧
    (∃ out, plot_least_or_most_informative_examples scores least n =
        .ok out ∧ out.ret = (out.createdFig, some out.createdAx)) ∧
    (∃ out, plot_summary_of_informativeness scores ys =
        .ok out ∧ out.ret = (out.createdFig, none)) := by
  refine ⟨?_, ⟨_, plot_examples_ok least n hconv, rfl⟩,
    ⟨_, plot_summary_ok ys hconv hys h10, rfl⟩⟩
  cases ude with
  | false => exact ⟨_, plot_histogram_ok_hist groups bins density bw hconv hlen, rfl⟩
  | true => exact ⟨_, plot_histogram_ok_kde groups bins density bw hconv hlen, rfl⟩

theorem C8_return_figure_pairs_witness :
    (∃ out, plot_histogram_of_informativeness
        (.npArray [5, 1, 4, 2, 3, 6, 0, 9, 7, 8]) none (.count 50) false false
        (1 / 5000) = .ok out ∧ out.ret = (out.createdFig, some out.createdAx)) ∧
    (∃ out, plot_least_or_most_informative_examples
        (.npArray [5, 1, 4, 2, 3, 6, 0, 9, 7, 8]) true 3 =
        .ok out ∧ out.ret = (out.createdFig, some out.createdAx)) ∧
    (∃ out, plot_summary_of_informativeness
        (.npArray [5, 1, 4, 2, 3, 6, 0, 9, 7, 8]) [0, 1, 0, 1, 0, 1, 0, 1, 0, 1] =
        .ok out ∧ out.ret = (out.createdFig, none)) :=
  C8_return_figure_pairs (.npArray [5, 1, 4, 2, 3, 6, 0, 9, 7, 8])
    [5, 1, 4, 2, 3, 6, 0, 9, 7, 8] none (.count 50) false false (1 / 5000)
    true 3 [0, 1, 0, 1, 0, 1, 0, 1, 0, 1] rfl rfl (by decide) (by decide)

/-- Claim C9: the plotting functions consume the scores only as data: run
against a heap of array buffers they only allocate fresh buffers (for the
flattened copy, the mask selections and the argsort result) and never write
into an existing one, so every buffer present before the call — in
particular the caller's scores — reads unchanged after it. -/
theorem C9_no_input_mutation (h : VizHeap) (a : Nat)
    (groups : Option (List String)) (bins : Bins) (density ude : Bool) (bw : Q)
    (least : Bool) (n : Nat) (ys : List Int) (b : Nat) (hb : b < h.length) :
    readBuf (plot_histogram_heapRun h a groups bins density ude bw).1 b =
      readBuf h b ∧
    readBuf (plot_examples_heapRun h a least n).1 b = readBuf h b ∧
    readBuf (plot_summary_heapRun h a ys).1 b = readBuf h b := by
  have key : ∀ rest : List (List Q), (h ++ rest).getD b [] = h.getD b [] :=
    fun rest => List.getD_append h rest [] b hb
  refine ⟨?_, ?_, ?_⟩ <;>
    simp only [plot_histogram_heapRun, plot_examples_heapRun,
      plot_summary_heapRun, readBuf, List.append_assoc] <;>
    exact key _

theorem C9_no_input_mutation_witness :
    readBuf (plot_histogram_heapRun [[1, 2], [3]] 0 none (.count 50) false
      false (1 / 5000)).1 1 = readBuf [[1, 2], [3]] 1 ∧
    readBuf (plot_examples_heapRun [[1, 2], [3]] 0 true 2).1 1 =
      readBuf [[1, 2], [3]] 1 ∧
    readBuf (plot_summary_heapRun [[1, 2], [3]] 0 [0, 1]).1 1 =
      readBuf [[1, 2], [3]] 1 :=
  C9_no_input_mutation [[1, 2], [3]] 0 none (.count 50) false false (1 / 5000)
    true 2 [0, 1] 1 (by decide)
